import Mathlib

/-!
Verification of the execution runtime and agent tool-orchestration loop of the
llm-auto-api-integration repository.

The definitions below are a shallow embedding of the Python sources:
  - `src/execution/runtime.py` (class `Runtime`): environment provisioning,
    the kernel message pump of `execute_code`, the executed-cells history,
    and `shutdown_kernel`;
  - `src/execution/tools.py` (class `ExecuteCodeTool`): the execute-code tool;
  - `src/execution/agent.py` (method `Agent._execute_plan`): one iteration of
    the agent loop body.

External effects (the Jupyter kernel, the filesystem, the model provider) are
represented by explicit observation traces and oracle parameters, so that every
definition is executable and the Python control flow is mirrored line by line.
-/

namespace AutoApi

/-- Message types received on the iopub channel, as dispatched by
`Runtime.execute_code` (runtime.py lines 222-258).  `status` carries the
`execution_state` field; `stream` carries `name` and `text`; `display_data`
and `execute_result` carry `data` and `metadata` (rendered abstractly as
strings); `error` carries `ename`, `evalue` and the raw `traceback` list.
`other` stands for any message type the dispatch ignores (for example
`execute_input` and `clear_output`, per the comment at runtime.py line 258). -/
inductive MsgType where
  | status (execution_state : String)
  | stream (name text : String)
  | display_data (data metadata : String)
  | execute_result (data metadata : String)
  | error (ename evalue : String) (traceback : List String)
  | other
deriving DecidableEq, Repr

/-- One entry of the output list built by `Runtime.execute_code`.  Each
constructor is one of the dicts appended at runtime.py lines 206-213 and
228-257.  A kernel-reported `error` stores its traceback joined with newlines
(runtime.py line 249).  `kernelDied` is the synthetic dict appended at lines
206-213: its fields are the literal values `type = error`,
`ename = KernelDiedError`, `evalue = Kernel died`, and a raw empty traceback
list (not a joined string), which is why it is a separate constructor. -/
inductive Output where
  | stream (name text : String)
  | display_data (data metadata : String)
  | execute_result (data metadata : String)
  | error (ename evalue traceback : String)
  | kernelDied
deriving DecidableEq, Repr

/-- One observation of `self.kernel_client.get_iopub_msg(timeout=10)` at
runtime.py line 202: either the call raised (typically `queue.Empty` on
timeout), in which case `kernelAlive` records what
`self.kernel_client.is_alive()` returns at that moment (line 204), or a
message arrived, with `parentId` the value of
`io_msg["parent_header"].get("msg_id")` (line 218). -/
inductive PollResult where
  | timeout (kernelAlive : Bool)
  | msg (parentId : String) (m : MsgType)
deriving DecidableEq, Repr

/-- Classification of a kernel message into an output event, exactly the
dispatch of runtime.py lines 222-258: `stream`, `display_data`,
`execute_result` and `error` produce an output (the error traceback joined
with newlines, line 249); `status` and all other message types produce none. -/
def classifyMsg : MsgType → Option Output
  | .stream n t => some (.stream n t)
  | .display_data d m => some (.display_data d m)
  | .execute_result d m => some (.execute_result d m)
  | .error en ev tb => some (.error en ev (String.intercalate "\n" tb))
  | .status _ => none
  | .other => none

/-- The output event a single poll contributes to the result of
`execute_code` for request `msgId`: nothing for a timeout, nothing for a
message whose correlation id differs from `msgId` (runtime.py line 218), and
otherwise the classification of the message. -/
def pollOutput (msgId : String) : PollResult → Option Output
  | .timeout _ => none
  | .msg pid m => if pid = msgId then classifyMsg m else none

/-- Whether a poll terminates the `while True` pump of `execute_code` for
request `msgId`: a timeout with the kernel dead (runtime.py line 204), or a
status message correlated to `msgId` whose execution state is idle
(lines 225-227).  Every other poll lets the loop continue. -/
def terminatesPump (msgId : String) : PollResult → Bool
  | .timeout alive => !alive
  | .msg pid (.status st) => pid == msgId && st == "idle"
  | .msg _ _ => false

/-- The message pump of `Runtime.execute_code` (runtime.py lines 200-258),
run against a finite observation trace.  `outputs` is the accumulator list
(`outputs = []` at line 194, `outputs.append(...)` in the loop).  The result
is `some outs` when the loop breaks with final output list `outs`, and `none`
when the trace is exhausted with the loop still running (the real loop would
block on the next poll). -/
def pump (msgId : String) (outputs : List Output) :
    List PollResult → Option (List Output)
  | [] => none
  | .timeout alive :: rest =>
      if alive then
        -- line 216: just a timeout, keep waiting for the idle status
        pump msgId outputs rest
      else
        -- lines 204-214: kernel died, append the synthetic error and break
        some (outputs ++ [Output.kernelDied])
  | .msg pid m :: rest =>
      if pid ≠ msgId then
        -- lines 218-220: not a message related to our execution request
        pump msgId outputs rest
      else
        match m with
        | .status st =>
            if st = "idle" then some outputs else pump msgId outputs rest
        | .stream n t => pump msgId (outputs ++ [Output.stream n t]) rest
        | .display_data d md =>
            pump msgId (outputs ++ [Output.display_data d md]) rest
        | .execute_result d md =>
            pump msgId (outputs ++ [Output.execute_result d md]) rest
        | .error en ev tb =>
            pump msgId
              (outputs ++ [Output.error en ev (String.intercalate "\n" tb)]) rest
        | .other => pump msgId outputs rest

/-- One entry of `Runtime.executed_cells`: the dict
`{code: code_string, outputs: outputs}` appended at runtime.py line 260. -/
structure ExecutedCell where
  code : String
  outputs : List Output
deriving DecidableEq, Repr

/-- The state of a `Runtime` instance relevant to `execute_code`:
`kernelClient` is `none` when `self.kernel_client` is `None`, and `some b`
when a client exists and `self.kernel_client.is_alive()` returns `b` at the
start of the call (the guard at runtime.py line 183); `executed_cells` is the
history list. -/
structure RuntimeState where
  kernelClient : Option Bool
  executed_cells : List ExecutedCell
deriving DecidableEq, Repr

/-- The outcome of one call to `Runtime.execute_code`.  `unavailable` is the
`RuntimeError` raised at runtime.py line 185 and carries the state at that
point (nothing was mutated before the raise).  `blocked` means the
observation trace ended before the pump broke out of its loop, so the call
has not returned.  `returned` carries the returned output list and the state
after the history append at line 260. -/
inductive ExecResult where
  | unavailable (st : RuntimeState)
  | blocked
  | returned (outputs : List Output) (st : RuntimeState)
deriving DecidableEq, Repr

/-- Shallow embedding of `Runtime.execute_code` (runtime.py lines 172-262).
`msgId` is the request id returned by `self.kernel_client.execute(...)` at
line 190, and `trace` is the sequence of poll observations consumed by the
pump.  The guard at line 183 raises when there is no client or the client is
not alive; otherwise the pump runs and, on a normal break, the executed cell
is appended to the history (line 260) and the outputs are returned. -/
def execute_code (st : RuntimeState) (code_string : String) (msgId : String)
    (trace : List PollResult) : ExecResult :=
  if st.kernelClient ≠ some true then
    ExecResult.unavailable st
  else
    match pump msgId [] trace with
    | none => ExecResult.blocked
    | some outputs =>
        ExecResult.returned outputs
          { st with
            executed_cells := st.executed_cells ++ [⟨code_string, outputs⟩] }

/-- Embedding of `Runtime.get_executed_cells` (runtime.py lines 264-266). -/
def get_executed_cells (st : RuntimeState) : List ExecutedCell :=
  st.executed_cells

/-- Outcome of one call to a tool's `execute`.  `raised` is an uncaught
exception propagating out of the tool with the given message; `blocked`
means an inner runtime call has not returned; `result` is a normal text
return, together with the runtime state afterwards. -/
inductive ToolOutcome where
  | raised (message : String)
  | blocked
  | result (text : String) (st : RuntimeState)
deriving Repr

/-- Shallow embedding of `ExecuteCodeTool.execute` (tools.py lines 138-140).
The body is exactly `result = self.runtime.execute_code(code)` followed by
joining `str(r)` over the results with newlines; there is no try/except, so
an exception raised by `execute_code` propagates to the caller.  `render`
stands for Python `str` applied to one output dict (its exact text is
irrelevant here and is kept abstract). -/
def execute_code_tool (render : Output → String) (st : RuntimeState)
    (code : String) (msgId : String) (trace : List PollResult) : ToolOutcome :=
  match execute_code st code msgId trace with
  | .unavailable _ => ToolOutcome.raised "Kernel not available for execution."
  | .blocked => ToolOutcome.blocked
  | .returned outs st' =>
      ToolOutcome.result (String.intercalate "\n" (outs.map render)) st'

/-- One item of `response.output` in the agent loop
(agent.py lines 129-131).  `functionCall` carries `name`, `call_id` and the
raw `arguments` string; `message` is a plain output item (its text reaches
the transcript only through `response.output_text`); `reasoning` stands for
any other item type. -/
inductive OutputItem where
  | message (text : String)
  | functionCall (name call_id arguments : String)
  | reasoning
deriving DecidableEq, Repr

/-- A model response as consumed by `Agent._execute_plan`: the concatenated
`output_text` and the `output` item list. -/
structure ModelResponse where
  output_text : String
  output : List OutputItem
deriving DecidableEq, Repr

/-- One entry of `self.execution_messages` (agent.py).  `user`, `assistant`
and `developer` are the role-tagged dicts; `rawItem` is the raw
`response.output[0]` object appended at line 144; `function_call_output` is
the dict appended at lines 147-153. -/
inductive Msg where
  | user (content : String)
  | assistant (content : String)
  | developer (content : String)
  | rawItem (item : OutputItem)
  | function_call_output (call_id output : String)
deriving DecidableEq, Repr

/-- The diagnostic message appended by the `except` handler of the loop body
(agent.py lines 162-170): role user, content the fixed text plus `str(e)`. -/
def exceptMsg (e : String) : Msg :=
  Msg.user ("An error occurred, please revise your function call and try again. " ++ e)

/-- The registry `self.tools` (agent.py lines 44-49) at the granularity the
loop body uses it: an association list from tool name to the tool's
`execute`, which either returns text or raises with a message. -/
def ToolRegistry : Type :=
  List (String × (String → Except String String))

/-- Result of one iteration of the `while True` body of
`Agent._execute_plan`: the transcript afterwards, whether the loop exited
(the `break` at line 127), and which tool invocations `tool.execute(...)`
were started this iteration (name and parsed arguments; at most one). -/
structure StepResult where
  messages : List Msg
  exited : Bool
  invoked : List (String × String)
deriving DecidableEq, Repr

/-- Shallow embedding of one iteration of the loop body of
`Agent._execute_plan` (agent.py lines 115-170), with the whole body inside
the try/except of lines 116-170.  `json_loads` is the oracle for
`json.loads` applied to the raw arguments string (line 132): `Except.error e`
models a raised decode error with text `str(e)`.  Control flow mirrors the
source: the `done` check (line 126) precedes everything; `response.output[0]`
on an empty output list raises `IndexError` (caught by the handler); for a
function-call head, arguments are parsed (line 132) before the registry
lookup (line 134); an unknown tool appends only the unknown-tool user message
(lines 136-142); a known tool first has the raw call appended (line 144),
then is executed — a raised exception lands in the handler after that append;
a non-function-call head falls through to the assistant append
(lines 156-161). -/
def agent_step (json_loads : String → Except String String)
    (tools : ToolRegistry) (messages : List Msg) (resp : ModelResponse) :
    StepResult :=
  if resp.output_text = "done" then
    ⟨messages, true, []⟩
  else
    match resp.output.head? with
    | none =>
        -- response.output[0] raises IndexError, caught at line 162
        ⟨messages ++ [exceptMsg "list index out of range"], false, []⟩
    | some (.functionCall name cid rawArgs) =>
        match json_loads rawArgs with
        | .error e => ⟨messages ++ [exceptMsg e], false, []⟩
        | .ok args =>
            match List.lookup name tools with
            | none =>
                ⟨messages ++ [Msg.user ("Unknown tool Error: " ++ name)],
                 false, []⟩
            | some f =>
                match f args with
                | .ok text =>
                    ⟨messages ++ [Msg.rawItem (.functionCall name cid rawArgs),
                                  Msg.function_call_output cid text],
                     false, [(name, args)]⟩
                | .error e =>
                    ⟨messages ++ [Msg.rawItem (.functionCall name cid rawArgs),
                                  exceptMsg e],
                     false, [(name, args)]⟩
    | some _ =>
        ⟨messages ++ [Msg.assistant resp.output_text], false, []⟩

/-- Whether a response output list contains at least one function call. -/
def containsFunctionCall : List OutputItem → Bool
  | [] => false
  | .functionCall _ _ _ :: _ => true
  | _ :: rest => containsFunctionCall rest

/-- Work performed by `Runtime._setup_virtual_env` past the marker check:
`createVenv` is the `venv.create` call (runtime.py line 66), `installPackages`
the pip subprocess (lines 76-79), `installKernelSpec` the ipykernel install
subprocess (line 107). -/
inductive SetupAction where
  | createVenv
  | installPackages
  | installKernelSpec
deriving DecidableEq, Repr

/-- Filesystem/registry state seen by `Runtime._setup_virtual_env`:
`markerExists` is whether `(run_env_path / pyvenv.cfg)` exists (runtime.py
line 63), and `specRegistered` whether `KernelSpecManager.get_kernel_spec`
finds the kernel spec name (line 90). -/
structure EnvState where
  markerExists : Bool
  specRegistered : Bool
deriving DecidableEq, Repr

/-- Outcome of one `_setup_virtual_env` call: state afterwards, actions
performed in order, and whether the call raised (the `RuntimeError` at
runtime.py line 83 on package-install failure; kernel-spec install failure is
only a warning, lines 109-112). -/
structure SetupOutcome where
  state : EnvState
  actions : List SetupAction
  raised : Bool
deriving DecidableEq, Repr

/-- Shallow embedding of `Runtime._setup_virtual_env` (runtime.py lines
61-112).  `pipOk` tells whether the pip subprocess succeeds, `specOk` whether
the ipykernel-install subprocess succeeds.  If the marker exists the call
returns at once (line 64).  Otherwise `venv.create` writes the marker file
`pyvenv.cfg`, then packages are installed (failure raises `RuntimeError`),
then the kernel spec is registered unless already present (failure there is
non-fatal). -/
def setup_virtual_env (st : EnvState) (pipOk specOk : Bool) : SetupOutcome :=
  if st.markerExists then
    ⟨st, [], false⟩
  else
    let st1 : EnvState := { st with markerExists := true }
    if pipOk = false then
      ⟨st1, [.createVenv, .installPackages], true⟩
    else if st1.specRegistered then
      ⟨st1, [.createVenv, .installPackages], false⟩
    else if specOk then
      ⟨{ st1 with specRegistered := true },
       [.createVenv, .installPackages, .installKernelSpec], false⟩
    else
      ⟨st1, [.createVenv, .installPackages, .installKernelSpec], false⟩

/-- Two consecutive `_setup_virtual_env` calls on the same path, with the
second seeing the state the first left behind; returns all actions performed
across the two calls. -/
def setup_twice (st : EnvState) (pipOk1 specOk1 pipOk2 specOk2 : Bool) :
    List SetupAction :=
  let r1 := setup_virtual_env st pipOk1 specOk1
  let r2 := setup_virtual_env r1.state pipOk2 specOk2
  r1.actions ++ r2.actions

/-- State of `self.kernel_client` as `shutdown_kernel` sees it:
`channels_running` is the guard at runtime.py line 272, and
`stop_raises` tells whether `stop_channels()` raises (caught at lines
275-276). -/
structure ClientState where
  channels_running : Bool
  stop_raises : Bool
deriving DecidableEq, Repr

/-- State of `self.kernel_manager` as `shutdown_kernel` sees it:
`has_kernel` and `is_alive` are the guard at runtime.py line 280, and
`kill_raises` tells whether `shutdown_kernel(now=True)` raises (caught at
lines 285-286). -/
structure ManagerState where
  has_kernel : Bool
  is_alive : Bool
  kill_raises : Bool
deriving DecidableEq, Repr

/-- The two fields of a `Runtime` that `shutdown_kernel` tears down. -/
structure SessionState where
  kernel_client : Option ClientState
  kernel_manager : Option ManagerState
deriving DecidableEq, Repr

/-- Teardown steps attempted by `shutdown_kernel`, each recording whether the
guarded call raised (the exception is caught and printed either way). -/
inductive ShutdownAction where
  | stopChannels (raised : Bool)
  | killKernelNow (raised : Bool)
deriving DecidableEq, Repr

/-- Shallow embedding of `Runtime.shutdown_kernel` (runtime.py lines
268-288).  If a client exists and its channels are running, `stop_channels`
is attempted inside its own try/except, and the client field is then cleared
unconditionally; independently, if a manager exists with a live kernel,
`shutdown_kernel(now=True)` is attempted inside its own try/except and the
manager field is cleared unconditionally.  Returns the state afterwards and
the steps attempted. -/
def shutdown_kernel (st : SessionState) : SessionState × List ShutdownAction :=
  let clientActs : List ShutdownAction :=
    match st.kernel_client with
    | none => []
    | some c =>
        if c.channels_running then [ShutdownAction.stopChannels c.stop_raises]
        else []
  let managerActs : List ShutdownAction :=
    match st.kernel_manager with
    | none => []
    | some m =>
        if m.has_kernel && m.is_alive then
          [ShutdownAction.killKernelNow m.kill_raises]
        else []
  (⟨none, none⟩, clientActs ++ managerActs)

/-- An environment path, split into its directory part and its final
component (`Path.name` in Python). -/
structure EnvPath where
  parent : String
  name : String
deriving DecidableEq, Repr

/-- The character filter of runtime.py lines 46-48: keep alphanumeric
characters, replace everything else with an underscore. -/
def safe_env_name (name : String) : String :=
  String.mk (name.data.map (fun c => if c.isAlphanum then c else '_'))

/-- The kernel spec name built in `Runtime.__init__` (runtime.py lines
45-49): the fixed model-runtime marker followed by the filtered FINAL
component (`self.run_env_path.name`) of the environment path — the directory
part of the path does not enter the name. -/
def kernel_spec_name (p : EnvPath) : String :=
  "llm_runtime_kernel_" ++ safe_env_name p.name

/-! Helper lemmas about the message pump. -/

/-- Processing a poll that does not terminate the pump either skips it or
appends its classified output: one unfolding step of `pump`. -/
theorem pump_cons_nonterm (msgId : String) (q : PollResult)
    (hq : terminatesPump msgId q = false) (acc : List Output)
    (rest : List PollResult) :
    pump msgId acc (q :: rest) =
      pump msgId (acc ++ (pollOutput msgId q).toList) rest := by
  cases q with
  | timeout alive =>
      cases alive with
      | false => simp [terminatesPump] at hq
      | true => simp [pump, pollOutput]
  | msg pid m =>
      by_cases hpid : pid = msgId
      · subst hpid
        cases m with
        | status st =>
            have hst : st ≠ "idle" := by
              intro h
              subst h
              simp [terminatesPump] at hq
            simp [pump, pollOutput, classifyMsg, hst]
        | stream n t => simp [pump, pollOutput, classifyMsg]
        | display_data d md => simp [pump, pollOutput, classifyMsg]
        | execute_result d md => simp [pump, pollOutput, classifyMsg]
        | error en ev tb => simp [pump, pollOutput, classifyMsg]
        | other => simp [pump, pollOutput, classifyMsg]
      · cases m <;> simp [pump, pollOutput, hpid]

/-- Running the pump across a non-terminating prefix accumulates exactly the
classified outputs of that prefix, in order. -/
theorem pump_append_nonterm (msgId : String) (pre : List PollResult)
    (hpre : ∀ q ∈ pre, terminatesPump msgId q = false) (acc : List Output)
    (rest : List PollResult) :
    pump msgId acc (pre ++ rest) =
      pump msgId (acc ++ pre.filterMap (pollOutput msgId)) rest := by
  induction pre generalizing acc with
  | nil => simp
  | cons q pre ih =>
      have hq : terminatesPump msgId q = false := hpre q (by simp)
      have hrest : ∀ r ∈ pre, terminatesPump msgId r = false := by
        intro r hr
        exact hpre r (by simp [hr])
      rw [List.cons_append, pump_cons_nonterm msgId q hq, ih hrest]
      cases h : pollOutput msgId q <;> simp [h, List.filterMap_cons]

/-- An idle status correlated to the request terminates the pump with the
accumulated outputs. -/
theorem pump_idle (msgId : String) (acc : List Output)
    (rest : List PollResult) :
    pump msgId acc (PollResult.msg msgId (MsgType.status "idle") :: rest) =
      some acc := by
  simp [pump]

/-- A timeout observed with the kernel dead terminates the pump, appending
the synthetic kernel-died event. -/
theorem pump_dead (msgId : String) (acc : List Output)
    (rest : List PollResult) :
    pump msgId acc (PollResult.timeout false :: rest) =
      some (acc ++ [Output.kernelDied]) := by
  simp [pump]

/-- No classified kernel message ever yields the synthetic kernel-died
event: that event is produced only by the dead-timeout branch. -/
theorem pollOutput_ne_kernelDied (msgId : String) (q : PollResult) :
    pollOutput msgId q ≠ some Output.kernelDied := by
  cases q with
  | timeout alive => simp [pollOutput]
  | msg pid m =>
      by_cases hpid : pid = msgId
      · cases m <;> simp [pollOutput, classifyMsg, hpid]
      · simp [pollOutput, hpid]

/-- The synthetic kernel-died event never occurs among the classified
outputs of a trace. -/
theorem kernelDied_not_mem_filterMap (msgId : String)
    (l : List PollResult) :
    Output.kernelDied ∉ l.filterMap (pollOutput msgId) := by
  intro h
  rcases List.mem_filterMap.mp h with ⟨q, _, hq⟩
  exact pollOutput_ne_kernelDied msgId q hq

/-- Inversion: whenever the pump halts, the consumed trace splits into a
non-terminating prefix followed by a terminating poll, which is either an
idle status correlated to the request, or a timeout with the kernel dead; in
the latter case the result is the classified outputs of the prefix followed
by exactly the synthetic kernel-died event. -/
theorem pump_some_inv (msgId : String) (acc : List Output)
    (trace : List PollResult) (outs : List Output)
    (h : pump msgId acc trace = some outs) :
    (∃ pre rest, trace = pre ++ PollResult.msg msgId (MsgType.status "idle") :: rest ∧
        (∀ q ∈ pre, terminatesPump msgId q = false) ∧
        outs = acc ++ pre.filterMap (pollOutput msgId)) ∨
    (∃ pre rest, trace = pre ++ PollResult.timeout false :: rest ∧
        (∀ q ∈ pre, terminatesPump msgId q = false) ∧
        outs = acc ++ pre.filterMap (pollOutput msgId) ++ [Output.kernelDied]) := by
  induction trace generalizing acc with
  | nil => simp [pump] at h
  | cons q rest ih =>
      by_cases hq : terminatesPump msgId q = true
      · cases q with
        | timeout alive =>
            cases alive with
            | true => simp [terminatesPump] at hq
            | false =>
                rw [pump_dead] at h
                refine Or.inr ⟨[], rest, by simp, by simp, ?_⟩
                simp at h
                simp [← h]
        | msg pid m =>
            cases m with
            | status st =>
                have hps : pid = msgId ∧ st = "idle" := by
                  simpa [terminatesPump] using hq
                rcases hps with ⟨hp, hs⟩
                subst hp
                subst hs
                rw [pump_idle] at h
                refine Or.inl ⟨[], rest, by simp, by simp, ?_⟩
                simp at h
                simp [← h]
            | stream n t => simp [terminatesPump] at hq
            | display_data d md => simp [terminatesPump] at hq
            | execute_result d md => simp [terminatesPump] at hq
            | error en ev tb => simp [terminatesPump] at hq
            | other => simp [terminatesPump] at hq
      · have hq' : terminatesPump msgId q = false := by
          simpa using hq
        rw [pump_cons_nonterm msgId q hq'] at h
        rcases ih _ h with ⟨pre, rest', heq, hpre, hout⟩ | ⟨pre, rest', heq, hpre, hout⟩
        · refine Or.inl ⟨q :: pre, rest', by simp [heq], ?_, ?_⟩
          · intro r hr
            rcases List.mem_cons.mp hr with h | h
            · subst h; exact hq'
            · exact hpre r h
          · cases hpo : pollOutput msgId q <;>
              simp [hout, List.filterMap_cons, hpo]
        · refine Or.inr ⟨q :: pre, rest', by simp [heq], ?_, ?_⟩
          · intro r hr
            rcases List.mem_cons.mp hr with h | h
            · subst h; exact hq'
            · exact hpre r h
          · cases hpo : pollOutput msgId q <;>
              simp [hout, List.filterMap_cons, hpo]

/-- A fixed left factor cancels in string equations. -/
theorem string_append_left_cancel {s a b : String}
    (h : s ++ a = s ++ b) : a = b := by
  have h2 : (s ++ a).data = (s ++ b).data := congrArg String.data h
  rw [String.data_append, String.data_append] at h2
  exact String.ext (List.append_cancel_left h2)

/-! Claim theorems. -/

/-- C1: on a live kernel session, when the observation trace reaches an idle
status correlated to the request (after a prefix containing no terminating
poll), `execute_code` returns exactly the classified kernel messages of that
prefix whose correlation id equals the request id, in kernel emission order —
`pollOutput` yields `none` for every poll correlated to any other request, so
no foreign event appears — and appends the executed cell to the history. -/
theorem c1_execute_idle_exact (st : RuntimeState) (code msgId : String)
    (pre rest : List PollResult)
    (hlive : st.kernelClient = some true)
    (hpre : ∀ q ∈ pre, terminatesPump msgId q = false) :
    execute_code st code msgId
        (pre ++ PollResult.msg msgId (MsgType.status "idle") :: rest) =
      ExecResult.returned (pre.filterMap (pollOutput msgId))
        { st with executed_cells :=
            st.executed_cells ++ [⟨code, pre.filterMap (pollOutput msgId)⟩] } := by
  unfold execute_code
  rw [if_neg (by simp [hlive]),
    pump_append_nonterm msgId pre hpre [] _, pump_idle]
  simp

/-- Witness for C1: a concrete run with a stream message for the request, an
error correlated to a different request (dropped), a live-kernel timeout, a
busy status, and an execution result, then idle. -/
theorem c1_witness :
    execute_code ⟨some true, []⟩ "1+1" "m1"
        ([PollResult.msg "m1" (MsgType.stream "stdout" "hi"),
          PollResult.msg "other" (MsgType.error "E" "v" []),
          PollResult.timeout true,
          PollResult.msg "m1" (MsgType.status "busy"),
          PollResult.msg "m1" (MsgType.execute_result "2" "meta")] ++
         PollResult.msg "m1" (MsgType.status "idle") :: []) =
      ExecResult.returned
        [Output.stream "stdout" "hi", Output.execute_result "2" "meta"]
        ⟨some true,
         [⟨"1+1",
           [Output.stream "stdout" "hi", Output.execute_result "2" "meta"]⟩]⟩ :=
  c1_execute_idle_exact ⟨some true, []⟩ "1+1" "m1"
    [PollResult.msg "m1" (MsgType.stream "stdout" "hi"),
     PollResult.msg "other" (MsgType.error "E" "v" []),
     PollResult.timeout true,
     PollResult.msg "m1" (MsgType.status "busy"),
     PollResult.msg "m1" (MsgType.execute_result "2" "meta")] []
    rfl (by decide)

/-- C3: (i) a poll timeout observed with the kernel dead, after a prefix of
non-terminating polls, halts the pump with exactly one synthetic kernel-died
error appended as the final event (and that event occurs nowhere among the
classified outputs); (ii) a timeout with the kernel still alive never
terminates the pump — the loop simply continues; (iii) whenever the pump
halts, it halted either on an idle status correlated to the request or on a
dead-kernel timeout, so the dead-kernel timeout is the only way to stop
without observing this request's idle status. -/
theorem c3_kernel_died_pump (msgId : String) :
    (∀ pre rest, (∀ q ∈ pre, terminatesPump msgId q = false) →
        pump msgId [] (pre ++ PollResult.timeout false :: rest) =
          some (pre.filterMap (pollOutput msgId) ++ [Output.kernelDied]) ∧
        Output.kernelDied ∉ pre.filterMap (pollOutput msgId)) ∧
    (∀ acc rest, pump msgId acc (PollResult.timeout true :: rest) =
        pump msgId acc rest) ∧
    (∀ trace outs, pump msgId [] trace = some outs →
        (∃ pre rest,
            trace = pre ++ PollResult.msg msgId (MsgType.status "idle") :: rest ∧
            (∀ q ∈ pre, terminatesPump msgId q = false)) ∨
        (∃ pre rest, trace = pre ++ PollResult.timeout false :: rest ∧
            (∀ q ∈ pre, terminatesPump msgId q = false) ∧
            outs = pre.filterMap (pollOutput msgId) ++ [Output.kernelDied])) := by
  refine ⟨?_, ?_, ?_⟩
  · intro pre rest hpre
    refine ⟨?_, kernelDied_not_mem_filterMap msgId pre⟩
    rw [pump_append_nonterm msgId pre hpre, pump_dead]
    simp
  · intro acc rest
    simp [pump]
  · intro trace outs h
    rcases pump_some_inv msgId [] trace outs h with
      ⟨pre, rest, heq, hpre, _⟩ | ⟨pre, rest, heq, hpre, hout⟩
    · exact Or.inl ⟨pre, rest, heq, hpre⟩
    · exact Or.inr ⟨pre, rest, heq, hpre, by simpa using hout⟩

/-- Witness for C3: concrete pump runs exercising each conjunct. -/
theorem c3_witness :
    (pump "m1" [] ([PollResult.msg "m1" (MsgType.stream "stdout" "x")] ++
        PollResult.timeout false :: []) =
      some ([Output.stream "stdout" "x"] ++ [Output.kernelDied]) ∧
     Output.kernelDied ∉
       List.filterMap (pollOutput "m1")
         [PollResult.msg "m1" (MsgType.stream "stdout" "x")]) ∧
    pump "m1" [] (PollResult.timeout true :: [PollResult.timeout false]) =
      pump "m1" [] [PollResult.timeout false] ∧
    ((∃ pre rest,
        [PollResult.timeout false] =
          pre ++ PollResult.msg "m1" (MsgType.status "idle") :: rest ∧
        (∀ q ∈ pre, terminatesPump "m1" q = false)) ∨
     (∃ pre rest, [PollResult.timeout false] =
          pre ++ PollResult.timeout false :: rest ∧
        (∀ q ∈ pre, terminatesPump "m1" q = false) ∧
        [Output.kernelDied] =
          pre.filterMap (pollOutput "m1") ++ [Output.kernelDied])) :=
  ⟨(c3_kernel_died_pump "m1").1
      [PollResult.msg "m1" (MsgType.stream "stdout" "x")] [] (by decide),
   (c3_kernel_died_pump "m1").2.1 [] [PollResult.timeout false],
   (c3_kernel_died_pump "m1").2.2 [PollResult.timeout false]
      [Output.kernelDied] rfl⟩

/-- C4: `execute_code` raises (returns `unavailable`) exactly when there is
no live kernel client at the call — and the raise happens with the state
untouched; otherwise it delegates to the pump and, when the pump halts
normally, returns its outputs with the executed cell appended to the history
and the kernel fields unchanged.  No branch of the definition restarts the
kernel. -/
theorem c4_unavailable_iff (st : RuntimeState) (code msgId : String)
    (trace : List PollResult) :
    (execute_code st code msgId trace = ExecResult.unavailable st ↔
      st.kernelClient ≠ some true) ∧
    (∀ outs, st.kernelClient = some true → pump msgId [] trace = some outs →
      execute_code st code msgId trace =
        ExecResult.returned outs
          { st with executed_cells := st.executed_cells ++ [⟨code, outs⟩] }) := by
  constructor
  · constructor
    · intro h
      by_cases hc : st.kernelClient = some true
      · exfalso
        unfold execute_code at h
        rw [if_neg (by simp [hc])] at h
        cases hp : pump msgId [] trace <;> rw [hp] at h <;> simp at h
      · exact hc
    · intro h
      unfold execute_code
      rw [if_pos h]
  · intro outs hlive hp
    unfold execute_code
    rw [if_neg (by simp [hlive]), hp]

/-- Witness for C4: a call with no client raises with the state unchanged; a
call on a live client with an immediate idle returns and appends. -/
theorem c4_witness :
    execute_code ⟨none, []⟩ "x" "m1" [] = ExecResult.unavailable ⟨none, []⟩ ∧
    execute_code ⟨some true, []⟩ "x" "m1"
        [PollResult.msg "m1" (MsgType.status "idle")] =
      ExecResult.returned [] ⟨some true, [⟨"x", []⟩]⟩ :=
  ⟨(c4_unavailable_iff ⟨none, []⟩ "x" "m1" []).1.mpr (by decide),
   (c4_unavailable_iff ⟨some true, []⟩ "x" "m1"
      [PollResult.msg "m1" (MsgType.status "idle")]).2 [] rfl (by decide)⟩

/-- C10: per `execute_code` call the history changes atomically — an
`unavailable` raise leaves the history exactly as it was, and a normal
return appends exactly one record `(code, outputs)` at the tail, leaving
every existing record in place (this covers outputs ending in the synthetic
kernel-died event, which go through the same single append). -/
theorem c10_history_atomic (st : RuntimeState) (code msgId : String)
    (trace : List PollResult) :
    (∀ st', execute_code st code msgId trace = ExecResult.unavailable st' →
        get_executed_cells st' = get_executed_cells st) ∧
    (∀ outs st', execute_code st code msgId trace = ExecResult.returned outs st' →
        get_executed_cells st' = get_executed_cells st ++ [⟨code, outs⟩]) := by
  constructor
  · intro st' h
    unfold execute_code at h
    by_cases hc : st.kernelClient ≠ some true
    · rw [if_pos hc] at h
      simp only [ExecResult.unavailable.injEq] at h
      rw [← h]
    · rw [if_neg hc] at h
      cases hp : pump msgId [] trace <;> rw [hp] at h <;> simp at h
  · intro outs st' h
    unfold execute_code at h
    by_cases hc : st.kernelClient ≠ some true
    · rw [if_pos hc] at h
      simp at h
    · rw [if_neg hc] at h
      cases hp : pump msgId [] trace <;> rw [hp] at h
      · simp at h
      · simp only [ExecResult.returned.injEq] at h
        rw [← h.2, ← h.1]
        rfl

/-- Witness for C10: the unavailable case leaves an existing history intact;
a run ending in kernel death appends exactly one record. -/
theorem c10_witness :
    get_executed_cells (⟨none, [⟨"old", []⟩]⟩ : RuntimeState) =
      get_executed_cells (⟨none, [⟨"old", []⟩]⟩ : RuntimeState) ∧
    get_executed_cells
        (⟨some true, [⟨"old", []⟩, ⟨"y", [Output.kernelDied]⟩]⟩ : RuntimeState) =
      get_executed_cells (⟨some true, [⟨"old", []⟩]⟩ : RuntimeState) ++
        [⟨"y", [Output.kernelDied]⟩] :=
  ⟨(c10_history_atomic ⟨none, [⟨"old", []⟩]⟩ "x" "m1" []).1
      ⟨none, [⟨"old", []⟩]⟩ rfl,
   (c10_history_atomic ⟨some true, [⟨"old", []⟩]⟩ "y" "m1"
      [PollResult.timeout false]).2 [Output.kernelDied]
      ⟨some true, [⟨"old", []⟩, ⟨"y", [Output.kernelDied]⟩]⟩ rfl⟩

/-- C5: environment provisioning is idempotent — when the marker file exists
the call returns at once, performing no action and raising no error, and two
consecutive calls on the same path perform environment creation at most once
and package installation at most once. -/
theorem c5_provision_idempotent (st : EnvState) (p1 s1 p2 s2 : Bool) :
    (st.markerExists = true → setup_virtual_env st p1 s1 = ⟨st, [], false⟩) ∧
    (setup_twice st p1 s1 p2 s2).count SetupAction.createVenv ≤ 1 ∧
    (setup_twice st p1 s1 p2 s2).count SetupAction.installPackages ≤ 1 := by
  rcases st with ⟨m, r⟩
  cases m <;> cases r <;> cases p1 <;> cases s1 <;> cases p2 <;> cases s2 <;>
    refine ⟨fun h => ?_, by decide, by decide⟩ <;>
    first | decide | simp at h

/-- Witness for C5: with the marker present the call is a no-op, and a fresh
provision followed by a second call creates and installs once. -/
theorem c5_witness :
    setup_virtual_env ⟨true, false⟩ true true = ⟨⟨true, false⟩, [], false⟩ ∧
    (setup_twice ⟨false, false⟩ true true true true).count
        SetupAction.createVenv ≤ 1 ∧
    (setup_twice ⟨false, false⟩ true true true true).count
        SetupAction.installPackages ≤ 1 :=
  ⟨(c5_provision_idempotent ⟨true, false⟩ true true true true).1 rfl,
   (c5_provision_idempotent ⟨false, false⟩ true true true true).2.1,
   (c5_provision_idempotent ⟨false, false⟩ true true true true).2.2⟩

/-- C9: `shutdown_kernel` is idempotent — the call after any first call
finds both fields cleared, performs no teardown step and leaves the state
unchanged — and its two teardown steps are independently guarded: even when
`stop_channels` raises, the immediate kernel kill is still attempted (and
conversely the channel stop precedes and cannot be skipped by a kill
failure, as the returned action list shows). -/
theorem c9_shutdown_idempotent_guarded (st : SessionState) :
    shutdown_kernel (shutdown_kernel st).1 = ((shutdown_kernel st).1, []) ∧
    (∀ c m, st.kernel_client = some c → st.kernel_manager = some m →
        c.channels_running = true → m.has_kernel = true → m.is_alive = true →
        (shutdown_kernel st).2 =
          [ShutdownAction.stopChannels c.stop_raises,
           ShutdownAction.killKernelNow m.kill_raises]) := by
  constructor
  · rfl
  · intro c m hc hm hcr hk ha
    simp [shutdown_kernel, hc, hm, hcr, hk, ha]

/-- Witness for C9: a session whose channel stop raises still attempts the
kernel kill, and a second shutdown call is a no-op. -/
theorem c9_witness :
    shutdown_kernel
        (shutdown_kernel ⟨some ⟨true, true⟩, some ⟨true, true, false⟩⟩).1 =
      ((shutdown_kernel ⟨some ⟨true, true⟩, some ⟨true, true, false⟩⟩).1, []) ∧
    (shutdown_kernel ⟨some ⟨true, true⟩, some ⟨true, true, false⟩⟩).2 =
      [ShutdownAction.stopChannels true, ShutdownAction.killKernelNow false] :=
  ⟨(c9_shutdown_idempotent_guarded
      ⟨some ⟨true, true⟩, some ⟨true, true, false⟩⟩).1,
   (c9_shutdown_idempotent_guarded
      ⟨some ⟨true, true⟩, some ⟨true, true, false⟩⟩).2
      ⟨true, true⟩ ⟨true, true, false⟩ rfl rfl rfl rfl rfl⟩

/-- C8 counterexample: two distinct environment paths with equal final
components receive the same kernel spec name, so the identifier is not
unique per environment path. -/
theorem c8_counterexample :
    (⟨"/srcdir", ".venv_llm"⟩ : EnvPath) ≠
      (⟨"/otherdir", ".venv_llm"⟩ : EnvPath) ∧
    kernel_spec_name ⟨"/srcdir", ".venv_llm"⟩ =
      kernel_spec_name ⟨"/otherdir", ".venv_llm"⟩ :=
  ⟨by decide, rfl⟩

/-- C8 amended: the kernel spec name is a deterministic function of the
environment path, but it depends only on the final path component with
non-alphanumeric characters replaced by underscores — two paths receive the
same identifier exactly when their filtered final components coincide, so
distinct paths can collide. -/
theorem c8_spec_name_collision (p q : EnvPath) :
    kernel_spec_name p = kernel_spec_name q ↔
      safe_env_name p.name = safe_env_name q.name := by
  unfold kernel_spec_name
  exact ⟨fun h => string_append_left_cancel h, fun h => by rw [h]⟩

/-- Identity oracle for `json.loads`: every raw argument string parses to
itself (models a well-formed arguments payload). -/
def jl_id : String → Except String String := fun s => Except.ok s

/-- A concrete registry with the four tool names built in `Agent.__init__`
(agent.py lines 44-49), each execute returning a fixed text. -/
def demo_tools : ToolRegistry :=
  [("execute_code", fun _ => Except.ok "ok"),
   ("generate_app", fun _ => Except.ok "ok"),
   ("list_apps", fun _ => Except.ok "ok"),
   ("import_app", fun _ => Except.ok "ok")]

/-- C2 counterexample: `ExecuteCodeTool.execute` has no exception handler,
so with no live kernel client the `RuntimeError` from
`Runtime.execute_code` propagates out of the tool instead of being rendered
as text — the tool call raises. -/
theorem c2_counterexample :
    execute_code_tool (fun _ => "") ⟨none, []⟩ "1+1" "m1" [] =
      ToolOutcome.raised "Kernel not available for execution." := rfl

/-- C2 amended: a runtime failure inside `ExecuteCodeTool.execute` is not
caught by the tool — whenever no live kernel client exists the tool raises
the runtime error — and it is the agent loop's per-turn handler that then
catches the exception and appends it as a diagnostic user message (after the
raw call was already appended), so the turn continues instead of crashing. -/
theorem c2_tool_raises_loop_catches :
    (∀ (render : Output → String) (st : RuntimeState)
        (code msgId : String) (trace : List PollResult),
        st.kernelClient ≠ some true →
        execute_code_tool render st code msgId trace =
          ToolOutcome.raised "Kernel not available for execution.") ∧
    (∀ (jl : String → Except String String) (tools : ToolRegistry)
        (msgs : List Msg) (otext name cid raw args e : String)
        (f : String → Except String String) (rest : List OutputItem),
        otext ≠ "done" → jl raw = Except.ok args →
        List.lookup name tools = some f → f args = Except.error e →
        agent_step jl tools msgs
            ⟨otext, OutputItem.functionCall name cid raw :: rest⟩ =
          ⟨msgs ++ [Msg.rawItem (OutputItem.functionCall name cid raw),
                    exceptMsg e],
           false, [(name, args)]⟩) := by
  constructor
  · intro render st code msgId trace hdead
    unfold execute_code_tool execute_code
    rw [if_pos hdead]
  · intro jl tools msgs otext name cid raw args e f rest hdone hparse hlook hf
    simp [agent_step, hdone, hparse, hlook, hf]

/-- Witness for C2 (amended): a dead client makes the tool raise, and a
registry entry raising that error is caught and rendered into the
transcript by the loop handler. -/
theorem c2_witness :
    execute_code_tool (fun _ => "") ⟨some false, []⟩ "x" "m1" [] =
      ToolOutcome.raised "Kernel not available for execution." ∧
    agent_step jl_id
        [("execute_code",
          fun _ => Except.error "Kernel not available for execution.")]
        [] ⟨"", [OutputItem.functionCall "execute_code" "c1" "argsjson"]⟩ =
      ⟨[Msg.rawItem (OutputItem.functionCall "execute_code" "c1" "argsjson"),
        exceptMsg "Kernel not available for execution."], false,
       [("execute_code", "argsjson")]⟩ :=
  ⟨c2_tool_raises_loop_catches.1 (fun _ => "") ⟨some false, []⟩ "x" "m1" []
      (by decide),
   c2_tool_raises_loop_catches.2 jl_id
      [("execute_code",
        fun _ => Except.error "Kernel not available for execution.")]
      [] "" "execute_code" "c1" "argsjson" "argsjson"
      "Kernel not available for execution."
      (fun _ => Except.error "Kernel not available for execution.") []
      (by decide) rfl rfl rfl⟩

/-- C6 counterexample: a response whose output text is not the completion
token and which contains a function call is NOT dispatched when the call is
not the first output item — the loop only inspects `response.output[0]` and
here treats the turn as a plain assistant message, invoking nothing. -/
theorem c6_counterexample :
    containsFunctionCall
        [OutputItem.message "working on it",
         OutputItem.functionCall "execute_code" "c1" "argsjson"] = true ∧
    ("working on it" : String) ≠ "done" ∧
    agent_step jl_id demo_tools []
        ⟨"working on it",
         [OutputItem.message "working on it",
          OutputItem.functionCall "execute_code" "c1" "argsjson"]⟩ =
      ⟨[Msg.assistant "working on it"], false, []⟩ :=
  ⟨rfl, by decide, rfl⟩

/-- C6 amended: dispatch looks only at the first output item.  If the first
item is a function call (arguments parse, tool known), exactly that call is
invoked and the result does not depend on the remaining items, so any
further function calls in the same turn are ignored; if the first item is
not a function call, no tool is invoked at all, even when later items are
function calls. -/
theorem c6_first_item_dispatch :
    (∀ (jl : String → Except String String) (tools : ToolRegistry)
        (msgs : List Msg) (otext name cid raw args : String)
        (f : String → Except String String) (rest rest' : List OutputItem),
        otext ≠ "done" → jl raw = Except.ok args →
        List.lookup name tools = some f →
        (agent_step jl tools msgs
            ⟨otext, OutputItem.functionCall name cid raw :: rest⟩).invoked =
          [(name, args)] ∧
        agent_step jl tools msgs
            ⟨otext, OutputItem.functionCall name cid raw :: rest⟩ =
          agent_step jl tools msgs
            ⟨otext, OutputItem.functionCall name cid raw :: rest'⟩) ∧
    (∀ (jl : String → Except String String) (tools : ToolRegistry)
        (msgs : List Msg) (otext : String) (item : OutputItem)
        (rest : List OutputItem),
        otext ≠ "done" →
        (∀ n c r, item ≠ OutputItem.functionCall n c r) →
        (agent_step jl tools msgs ⟨otext, item :: rest⟩).invoked = []) := by
  constructor
  · intro jl tools msgs otext name cid raw args f rest rest' hdone hparse hlook
    cases hf : f args <;> simp [agent_step, hdone, hparse, hlook, hf]
  · intro jl tools msgs otext item rest hdone hitem
    cases item with
    | functionCall n c r => exact absurd rfl (hitem n c r)
    | message t => simp [agent_step, hdone]
    | reasoning => simp [agent_step, hdone]

/-- Witness for C6 (amended): a head function call is invoked with a second
call in the same turn ignored, and a non-call head invokes nothing even with
a call right behind it. -/
theorem c6_witness :
    (agent_step jl_id demo_tools []
        ⟨"", [OutputItem.functionCall "execute_code" "c1" "argsjson",
              OutputItem.functionCall "generate_app" "c2" "argsjson"]⟩).invoked =
      [("execute_code", "argsjson")] ∧
    (agent_step jl_id demo_tools []
        ⟨"hi", [OutputItem.reasoning,
                OutputItem.functionCall "execute_code" "c1" "argsjson"]⟩).invoked =
      [] :=
  ⟨(c6_first_item_dispatch.1 jl_id demo_tools [] "" "execute_code" "c1"
      "argsjson" "argsjson" (fun _ => Except.ok "ok")
      [OutputItem.functionCall "generate_app" "c2" "argsjson"] []
      (by decide) rfl rfl).1,
   c6_first_item_dispatch.2 jl_id demo_tools [] "hi" OutputItem.reasoning
      [OutputItem.functionCall "execute_code" "c1" "argsjson"]
      (by decide) (fun n c r h => OutputItem.noConfusion h)⟩

/-- C7: a function-call response naming a tool absent from the registry
makes the loop append exactly one unknown-tool user message to the
transcript, invoke no tool, and continue (the step neither exits the loop
nor raises — the unknown-tool branch returns before the raw call is
appended). -/
theorem c7_unknown_tool (jl : String → Except String String)
    (tools : ToolRegistry) (msgs : List Msg)
    (otext name cid raw args : String) (rest : List OutputItem)
    (hdone : otext ≠ "done") (hparse : jl raw = Except.ok args)
    (habsent : List.lookup name tools = none) :
    agent_step jl tools msgs
        ⟨otext, OutputItem.functionCall name cid raw :: rest⟩ =
      ⟨msgs ++ [Msg.user ("Unknown tool Error: " ++ name)], false, []⟩ := by
  simp [agent_step, hdone, hparse, habsent]

/-- Witness for C7: a call to a tool name not in the registry appends the
unknown-tool message and the loop continues. -/
theorem c7_witness :
    agent_step jl_id demo_tools []
        ⟨"", [OutputItem.functionCall "nope" "c1" "argsjson"]⟩ =
      ⟨[Msg.user ("Unknown tool Error: " ++ "nope")], false, []⟩ :=
  c7_unknown_tool jl_id demo_tools [] "" "nope" "c1" "argsjson" "argsjson" []
    (by decide) rfl rfl

end AutoApi
